import Mathlib

/-!
Verification of the auth-jwt repository's natural-language specification
against a shallow Lean embedding of its source.

The embedding covers:
* jwtService.js      — token generation / verification (JWTService)
* passwordService.js — password strength policy (PasswordService)
* authService.js     — register / login / logout / refreshToken /
                       revokeAllTokens / cleanupExpiredTokens (AuthService)
* oauthService.js    — createOAuthUser (OAuthService)

The Prisma-backed database is modelled as an explicit `Store` value
(lists of user and refresh-token rows); each service operation is a
function from a store to a store paired with an `Except` result, so the
store returned on an error is exactly the store at the point the
JavaScript code threw.  Wall-clock time is an explicit `now : Nat`
parameter (seconds); bcrypt hashing and comparison are oracle function
parameters, as is Prisma's cuid generation for new ids.
-/

namespace AuthJwt

/-! ### Small string helpers (embeddings of the JavaScript string primitives) -/

/-- Embedding of JavaScript `String.prototype.toLowerCase` (ASCII range,
which is all the source exercises). -/
def lowerStr (s : String) : String :=
  String.mk (s.toList.map Char.toLower)

/-- Embedding of JavaScript `String.prototype.trim`. -/
def jsTrim (s : String) : String :=
  String.mk (((s.toList.dropWhile Char.isWhitespace).reverse.dropWhile Char.isWhitespace).reverse)

/-- Does `pat` occur at the front of `s`? (helper for substring search). -/
def leadsWith : List Char → List Char → Bool
  | [], _ => true
  | _ :: _, [] => false
  | p :: ps, c :: cs => p == c && leadsWith ps cs

/-- Does `pat` occur anywhere inside `s`? (helper for substring search). -/
def occursIn (pat : List Char) : List Char → Bool
  | [] => leadsWith pat []
  | c :: rest => leadsWith pat (c :: rest) || occursIn pat rest

/-- Embedding of JavaScript `String.prototype.includes`. -/
def includesSub (s pat : String) : Bool :=
  occursIn pat.toList s.toList

/-- Embedding of JavaScript `Array.prototype.join(sep)`. -/
def joinWith (sep : String) : List String → String
  | [] => ""
  | [x] => x
  | x :: y :: xs => x ++ sep ++ joinWith sep (y :: xs)

/-- Embedding of JavaScript `String.prototype.split(c)` for a single
separator character. -/
def splitChars (sep : Char) : List Char → List (List Char)
  | [] => [[]]
  | c :: rest =>
    if c == sep then [] :: splitChars sep rest
    else
      match splitChars sep rest with
      | [] => [[c]]
      | h :: t => (c :: h) :: t

/-- Embedding of JavaScript `s.split(' ')`. -/
def splitOnSpace (s : String) : List String :=
  (splitChars ' ' s.toList).map String.mk

/-- Embedding of the JavaScript or-else idiom `a || d` on an optional
string, where the empty string is falsy. -/
def jsOr (a : Option String) (d : String) : String :=
  match a with
  | some s => if s = "" then d else s
  | none => d

/-! ### Email-format regex of authService.register

The source tests `/^[^\s@]+@[^\s@]+\.[^\s@]+$/`.  A string matches
exactly when it is `A ++ "@" ++ B ++ "." ++ C` with `A`, `B`, `C`
non-empty sequences of characters that are neither whitespace nor `@`
(`B` and `C` may themselves contain dots). -/

/-- A character matched by the regex class `[^\s@]`. -/
def isEmailChar (c : Char) : Bool :=
  !c.isWhitespace && c != '@'

/-- Is there a dot somewhere in the list with at least one character after it? -/
def dotWithSuccessor : List Char → Bool
  | [] => false
  | '.' :: _ :: _ => true
  | _ :: rest => dotWithSuccessor rest

/-- Embedding of the `emailRegex.test(email)` check in `AuthService.register`. -/
def emailFormatOk (s : String) : Bool :=
  let cs := s.toList
  let beforeAt := cs.takeWhile isEmailChar
  match cs.drop beforeAt.length with
  | '@' :: after =>
    !beforeAt.isEmpty && after.all isEmailChar &&
      (match after with
       | [] => false
       | _ :: tail => dotWithSuccessor tail)
  | _ => false

/-! ### jwtService.js -/

/-- Error cases thrown by `JWTService`; `message` below reproduces the
exact `Error` message strings of the source. -/
inductive JwtErr where
  | tokenNotString
  | secretRequired (varName : String)
  | payloadMissing (field : String)
  | tokenExpired (kindCap : String)
  | invalidToken (kindLower : String)
  | verifyFailed (kindLower : String) (inner : String)
  deriving DecidableEq, Repr

def JwtErr.message : JwtErr → String
  | .tokenNotString => "Token must be a non-empty string"
  | .secretRequired v => v ++ " environment variable is required"
  | .payloadMissing f => "Payload must include " ++ f
  | .tokenExpired k => k ++ " token has expired"
  | .invalidToken k => "Invalid " ++ k ++ " token"
  | .verifyFailed k inner => "Failed to verify " ++ k ++ " token: " ++ inner

/-- The claims object `jwt.sign` embeds in a token.  Refresh tokens carry
no role claim (`role := none`); access tokens always carry one. -/
structure Claims where
  userId : String
  email : String
  role : Option String
  type : String
  exp : Nat
  deriving DecidableEq, Repr

/-- A structurally well-formed signed JWT, identified with its decoded
content plus the secret it was signed with and its issuer/audience
claims (the compact encoding is injective on these). -/
structure SignedToken where
  claims : Claims
  secret : String
  issuer : String
  audience : String
  deriving DecidableEq, Repr

/-- The environment variables `JWTService` reads.  An empty string models
an unset variable (both are falsy in the source's `if (!secret)` check).
Expiry offsets are in seconds (`15m` = 900, `7d` = 604800). -/
structure Env where
  accessSecret : String
  refreshSecret : String
  accessExpiresIn : Nat
  refreshExpiresIn : Nat
  deriving DecidableEq, Repr

structure TokenPayload where
  userId : String
  email : String
  role : Option String
  deriving DecidableEq, Repr

/-- `JWTService.generateAccessToken`. -/
def generateAccessToken (env : Env) (now : Nat) (p : TokenPayload) : Except JwtErr SignedToken :=
  if p.userId = "" then .error (.payloadMissing "userId")
  else if p.email = "" then .error (.payloadMissing "email")
  else if env.accessSecret = "" then .error (.secretRequired "JWT_ACCESS_SECRET")
  else .ok
    { claims :=
        { userId := p.userId, email := p.email
          role := some (jsOr p.role "user"), type := "access"
          exp := now + env.accessExpiresIn }
      secret := env.accessSecret, issuer := "auth-service", audience := "auth-client" }

/-- `JWTService.generateRefreshToken`. -/
def generateRefreshToken (env : Env) (now : Nat) (p : TokenPayload) : Except JwtErr SignedToken :=
  if p.userId = "" then .error (.payloadMissing "userId")
  else if p.email = "" then .error (.payloadMissing "email")
  else if env.refreshSecret = "" then .error (.secretRequired "JWT_REFRESH_SECRET")
  else .ok
    { claims :=
        { userId := p.userId, email := p.email
          role := none, type := "refresh"
          exp := now + env.refreshExpiresIn }
      secret := env.refreshSecret, issuer := "auth-service", audience := "auth-client" }

structure TokenPair where
  accessToken : SignedToken
  refreshToken : SignedToken
  deriving DecidableEq, Repr

/-- `JWTService.generateTokenPair` (access first, then refresh, matching
the object-literal evaluation order). -/
def generateTokenPair (env : Env) (now : Nat) (p : TokenPayload) : Except JwtErr TokenPair :=
  match generateAccessToken env now p with
  | .error e => .error e
  | .ok a =>
    match generateRefreshToken env now p with
    | .error e => .error e
    | .ok r => .ok { accessToken := a, refreshToken := r }

/-- `JWTService.verifyAccessToken`.  Mirrors the `jsonwebtoken` check
order: signature, then expiry (`TokenExpiredError` iff `now ≥ exp`),
then audience/issuer; the service then rejects non-access `type` claims
(that error has a plain `Error` name, so the catch re-wraps it). -/
def verifyAccessToken (env : Env) (now : Nat) (tok : SignedToken) : Except JwtErr Claims :=
  if env.accessSecret = "" then .error (.secretRequired "JWT_ACCESS_SECRET")
  else if tok.secret ≠ env.accessSecret then .error (.invalidToken "access")
  else if tok.claims.exp ≤ now then .error (.tokenExpired "Access")
  else if tok.issuer ≠ "auth-service" ∨ tok.audience ≠ "auth-client" then
    .error (.invalidToken "access")
  else if tok.claims.type ≠ "access" then .error (.verifyFailed "access" "Invalid token type")
  else .ok tok.claims

/-- `JWTService.verifyRefreshToken`. -/
def verifyRefreshToken (env : Env) (now : Nat) (tok : SignedToken) : Except JwtErr Claims :=
  if env.refreshSecret = "" then .error (.secretRequired "JWT_REFRESH_SECRET")
  else if tok.secret ≠ env.refreshSecret then .error (.invalidToken "refresh")
  else if tok.claims.exp ≤ now then .error (.tokenExpired "Refresh")
  else if tok.issuer ≠ "auth-service" ∨ tok.audience ≠ "auth-client" then
    .error (.invalidToken "refresh")
  else if tok.claims.type ≠ "refresh" then .error (.verifyFailed "refresh" "Invalid token type")
  else .ok tok.claims

/-! ### passwordService.js -/

/-- A character matched by the source's special-character regex
`/[!@#$%^&*()_+\-=[\]{};':"\\|,.<>/?]/`. -/
def isSpecialChar (c : Char) : Bool :=
  ['!', '@', '#', '$', '%', '^', '&', '*', '(', ')', '_', '+', '-', '=',
   '[', ']', '{', '}', ';', '\'', ':', '\"', '\\', '|', ',', '.', '<', '>', '/', '?'].any (· == c)

structure StrengthResult where
  isValid : Bool
  errors : List String
  deriving DecidableEq, Repr

/-- `PasswordService.validatePasswordStrength`.  A non-string argument
and the empty string (both falsy) short-circuit to the single
"must be a string" error; the empty string is the case representable
here. -/
def validatePasswordStrength (password : String) : StrengthResult :=
  if password = "" then { isValid := false, errors := ["Password must be a string"] }
  else
    let errors :=
      (if password.length < 8 then ["Password must be at least 8 characters long"] else []) ++
      (if 128 < password.length then ["Password must be less than 128 characters long"] else []) ++
      (if !(password.toList.any Char.isLower) then ["Password must contain at least one lowercase letter"] else []) ++
      (if !(password.toList.any Char.isUpper) then ["Password must contain at least one uppercase letter"] else []) ++
      (if !(password.toList.any Char.isDigit) then ["Password must contain at least one number"] else []) ++
      (if !(password.toList.any isSpecialChar) then ["Password must contain at least one special character"] else [])
    { isValid := errors.isEmpty, errors := errors }

/-! ### The persistent store (Prisma `user` and `refreshToken` tables) -/

structure User where
  id : String
  email : String
  password : Option String
  firstName : String
  lastName : String
  provider : String
  providerId : Option String
  isEmailVerified : Bool
  lastLoginAt : Option Nat
  deriving DecidableEq, Repr

structure RefreshTokenRow where
  token : SignedToken
  userId : String
  expiresAt : Nat
  isRevoked : Bool
  deriving DecidableEq, Repr

structure Store where
  users : List User
  refreshTokens : List RefreshTokenRow
  deriving DecidableEq, Repr

/-- `prisma.user.findUnique({ where: { email } })`. -/
def findUserByEmail (st : Store) (e : String) : Option User :=
  st.users.find? (fun u => decide (u.email = e))

/-- `prisma.user.findUnique({ where: { id } })` / the `include: user` join. -/
def findUserById (st : Store) (i : String) : Option User :=
  st.users.find? (fun u => decide (u.id = i))

/-- `prisma.refreshToken.findUnique({ where: { token } })`. -/
def findRefreshToken (st : Store) (t : SignedToken) : Option RefreshTokenRow :=
  st.refreshTokens.find? (fun r => decide (r.token = t))

/-- `prisma.refreshToken.create`: the `token` column carries a unique
constraint, so inserting a value already present fails. -/
def createRefreshTokenRow (st : Store) (row : RefreshTokenRow) : Except String Store :=
  if st.refreshTokens.any (fun r => decide (r.token = row.token)) then
    .error "Unique constraint failed on the fields: (token)"
  else .ok { st with refreshTokens := st.refreshTokens ++ [row] }

/-- `prisma.refreshToken.update({ where: { token }, data: { isRevoked: true } })`. -/
def revokeRow (st : Store) (t : SignedToken) : Store :=
  { st with refreshTokens :=
      st.refreshTokens.map (fun r => if r.token = t then { r with isRevoked := true } else r) }

/-- The 7-day database expiry the auth service stamps on every stored
refresh-token row (`refreshTokenExpiry.setDate(getDate() + 7)`). -/
def sevenDays : Nat := 7 * 24 * 60 * 60

/-! ### authService.js -/

/-- Error cases thrown by `AuthService` (plus wrapped lower-level
failures); `message` reproduces the source's `Error` messages, which the
catch blocks inspect by substring. -/
inductive AuthErr where
  | requiredFields (msg : String)
  | invalidEmailFormat
  | passwordValidationFailed (errs : List String)
  | userExists
  | invalidCredentials
  | oauthAccount
  | invalidRefreshToken
  | tokenAlreadyRevoked
  | refreshTokenRevoked
  | refreshTokenExpired
  | jwt (e : JwtErr)
  | dbError (msg : String)
  | registrationFailed (inner : String)
  | loginFailed (inner : String)
  | logoutFailed (inner : String)
  | tokenRefreshFailed (inner : String)
  deriving DecidableEq, Repr

def AuthErr.message : AuthErr → String
  | .requiredFields m => m
  | .invalidEmailFormat => "Invalid email format"
  | .passwordValidationFailed errs => "Password validation failed: " ++ joinWith ", " errs
  | .userExists => "User with this email already exists"
  | .invalidCredentials => "Invalid email or password"
  | .oauthAccount => "This account uses OAuth authentication. Please login with Google."
  | .invalidRefreshToken => "Invalid refresh token"
  | .tokenAlreadyRevoked => "Token already revoked"
  | .refreshTokenRevoked => "Refresh token has been revoked"
  | .refreshTokenExpired => "Refresh token has expired"
  | .jwt e => e.message
  | .dbError m => m
  | .registrationFailed i => "Registration failed: " ++ i
  | .loginFailed i => "Login failed: " ++ i
  | .logoutFailed i => "Logout failed: " ++ i
  | .tokenRefreshFailed i => "Token refresh failed: " ++ i

/-- The catch block of `AuthService.register`. -/
def registerCatch (e : AuthErr) : AuthErr :=
  if includesSub e.message "already exists" || includesSub e.message "validation failed" ||
      includesSub e.message "Invalid email" then e
  else .registrationFailed e.message

/-- The catch block of `AuthService.login`. -/
def loginCatch (e : AuthErr) : AuthErr :=
  if includesSub e.message "Invalid email" || includesSub e.message "OAuth authentication" then e
  else .loginFailed e.message

/-- The catch block of `AuthService.logout`. -/
def logoutCatch (e : AuthErr) : AuthErr :=
  if includesSub e.message "Invalid refresh token" || includesSub e.message "already revoked" then e
  else .logoutFailed e.message

/-- The catch block of `AuthService.refreshToken`. -/
def refreshCatch (e : AuthErr) : AuthErr :=
  if includesSub e.message "Invalid refresh token" || includesSub e.message "revoked" ||
      includesSub e.message "expired" then e
  else .tokenRefreshFailed e.message

structure RegisterData where
  email : String
  password : String
  firstName : String
  lastName : String
  deriving DecidableEq, Repr

structure RegisterResult where
  user : User
  tokens : TokenPair
  deriving DecidableEq, Repr

/-- `AuthService.register`.  `hashFn` is the bcrypt oracle, `newId` the
cuid Prisma would assign to the created row. -/
def register (env : Env) (hashFn : String → String) (newId : String) (now : Nat)
    (st : Store) (d : RegisterData) : Store × Except AuthErr RegisterResult :=
  if d.email = "" ∨ d.password = "" ∨ d.firstName = "" ∨ d.lastName = "" then
    (st, .error (.requiredFields "Email, password, firstName, and lastName are required"))
  else if !emailFormatOk d.email then (st, .error .invalidEmailFormat)
  else
    let v := validatePasswordStrength d.password
    if !v.isValid then (st, .error (.passwordValidationFailed v.errors))
    else
      match findUserByEmail st (lowerStr d.email) with
      | some _ => (st, .error (registerCatch .userExists))
      | none =>
        let user : User :=
          { id := newId, email := lowerStr d.email, password := some (hashFn d.password)
            firstName := jsTrim d.firstName, lastName := jsTrim d.lastName
            provider := "local", providerId := none, isEmailVerified := false
            lastLoginAt := none }
        let st1 : Store := { st with users := st.users ++ [user] }
        match generateTokenPair env now { userId := user.id, email := user.email, role := none } with
        | .error e => (st1, .error (registerCatch (.jwt e)))
        | .ok pair =>
          match createRefreshTokenRow st1
              { token := pair.refreshToken, userId := user.id
                expiresAt := now + sevenDays, isRevoked := false } with
          | .error m => (st1, .error (registerCatch (.dbError m)))
          | .ok st2 => (st2, .ok { user := user, tokens := pair })

structure LoginResult where
  user : User
  tokens : TokenPair
  deriving DecidableEq, Repr

/-- `AuthService.login`.  `cmp` is the bcrypt comparison oracle. -/
def login (env : Env) (cmp : String → String → Bool) (now : Nat)
    (st : Store) (email password : String) : Store × Except AuthErr LoginResult :=
  if email = "" ∨ password = "" then
    (st, .error (.requiredFields "Email and password are required"))
  else
    match findUserByEmail st (lowerStr email) with
    | none => (st, .error (loginCatch .invalidCredentials))
    | some user =>
      match user.password with
      | none => (st, .error (loginCatch .oauthAccount))
      | some hashed =>
        if hashed = "" then (st, .error (loginCatch .oauthAccount))
        else if !(cmp password hashed) then (st, .error (loginCatch .invalidCredentials))
        else
          let st1 : Store :=
            { st with users :=
                st.users.map (fun u => if u.id = user.id then { u with lastLoginAt := some now } else u) }
          match generateTokenPair env now { userId := user.id, email := user.email, role := none } with
          | .error e => (st1, .error (loginCatch (.jwt e)))
          | .ok pair =>
            match createRefreshTokenRow st1
                { token := pair.refreshToken, userId := user.id
                  expiresAt := now + sevenDays, isRevoked := false } with
            | .error m => (st1, .error (loginCatch (.dbError m)))
            | .ok st2 => (st2, .ok { user := { user with password := none }, tokens := pair })

/-- `AuthService.logout`.  `none` models a missing/empty argument (the
pre-try `if (!refreshToken)` check). -/
def logout (env : Env) (now : Nat) (st : Store) (refreshToken : Option SignedToken) :
    Store × Except AuthErr Unit :=
  match refreshToken with
  | none => (st, .error (.requiredFields "Refresh token is required"))
  | some tok =>
    match verifyRefreshToken env now tok with
    | .error e => (st, .error (logoutCatch (.jwt e)))
    | .ok _ =>
      match findRefreshToken st tok with
      | none => (st, .error (logoutCatch .invalidRefreshToken))
      | some row =>
        if row.isRevoked then (st, .error (logoutCatch .tokenAlreadyRevoked))
        else (revokeRow st tok, .ok ())

/-- `AuthService.refreshToken`.  The `findUnique` carries
`include: { user: true }`, so the joined user data is read before the
old row is revoked; the join result is only dereferenced after the
revocation, matching where the source would crash on a dangling
relation. -/
def refreshTokenOp (env : Env) (now : Nat) (st : Store) (refreshToken : Option SignedToken) :
    Store × Except AuthErr TokenPair :=
  match refreshToken with
  | none => (st, .error (.requiredFields "Refresh token is required"))
  | some tok =>
    match verifyRefreshToken env now tok with
    | .error e => (st, .error (refreshCatch (.jwt e)))
    | .ok _ =>
      match findRefreshToken st tok with
      | none => (st, .error (refreshCatch .invalidRefreshToken))
      | some row =>
        let userOpt := findUserById st row.userId
        if row.isRevoked then (st, .error (refreshCatch .refreshTokenRevoked))
        else if row.expiresAt < now then (st, .error (refreshCatch .refreshTokenExpired))
        else
          let st1 := revokeRow st tok
          match userOpt with
          | none => (st1, .error (refreshCatch (.dbError "missing user relation")))
          | some user =>
            match generateTokenPair env now { userId := user.id, email := user.email, role := none } with
            | .error e => (st1, .error (refreshCatch (.jwt e)))
            | .ok pair =>
              match createRefreshTokenRow st1
                  { token := pair.refreshToken, userId := user.id
                    expiresAt := now + sevenDays, isRevoked := false } with
              | .error m => (st1, .error (refreshCatch (.dbError m)))
              | .ok st2 => (st2, .ok pair)

/-- `AuthService.revokeAllTokens`. -/
def revokeAllTokens (st : Store) (userId : String) : Store × Except AuthErr Nat :=
  if userId = "" then (st, .error (.requiredFields "User ID is required"))
  else
    let count := (st.refreshTokens.filter (fun r => decide (r.userId = userId) && !r.isRevoked)).length
    ({ st with refreshTokens :=
        st.refreshTokens.map (fun r =>
          if r.userId = userId ∧ r.isRevoked = false then { r with isRevoked := true } else r) },
     .ok count)

/-- `AuthService.cleanupExpiredTokens`: `deleteMany` of rows with
`expiresAt < now` or `isRevoked`, returning the deleted count. -/
def cleanupExpiredTokens (st : Store) (now : Nat) : Store × Nat :=
  let kept := st.refreshTokens.filter (fun r => !(decide (r.expiresAt < now) || r.isRevoked))
  ({ st with refreshTokens := kept }, st.refreshTokens.length - kept.length)

/-- A refresh-token row usable for rotation under the source's checks
(`!isRevoked` and not `expiresAt < now`). -/
def isActive (r : RefreshTokenRow) (now : Nat) : Bool :=
  !r.isRevoked && now ≤ r.expiresAt

/-! ### oauthService.js -/

/-- The slice of a passport OAuth profile `createOAuthUser` reads. -/
structure OAuthProfile where
  id : String
  emails : List String
  givenName : Option String
  familyName : Option String
  displayName : Option String
  photos : List String
  deriving DecidableEq, Repr

/-- `OAuthService.createOAuthUser`.  Note: the email is persisted exactly
as supplied by the provider — the source performs no lower-casing here
(unlike `AuthService.register`). -/
def createOAuthUser (newId : String) (now : Nat) (st : Store)
    (email providerId provider : String) (profile : OAuthProfile) : Store × User :=
  let firstName :=
    jsOr profile.givenName
      (jsOr (profile.displayName.map (fun d => (splitOnSpace d).headD "")) "User")
  let lastName :=
    jsOr profile.familyName
      (jsOr (profile.displayName.map (fun d => joinWith " " ((splitOnSpace d).drop 1))) "")
  let user : User :=
    { id := newId, email := email, password := none
      firstName := firstName, lastName := lastName
      provider := provider, providerId := some providerId
      isEmailVerified := true, lastLoginAt := some now }
  ({ st with users := st.users ++ [user] }, user)

/-! ### Derived notions and concrete fixtures -/

instance {ε α : Type} [DecidableEq ε] [DecidableEq α] : DecidableEq (Except ε α) :=
  fun a b =>
    match a, b with
    | .ok x, .ok y =>
      if h : x = y then isTrue (by rw [h]) else isFalse (fun hc => h (Except.ok.inj hc))
    | .error x, .error y =>
      if h : x = y then isTrue (by rw [h]) else isFalse (fun hc => h (Except.error.inj hc))
    | .ok _, .error _ => isFalse (fun hc => Except.noConfusion hc)
    | .error _, .ok _ => isFalse (fun hc => Except.noConfusion hc)

/-- The row-evolution relation of claim C2: every row of the new store is
either an old row with the same token, owner, and expiry whose `revoked`
flag has evolved monotonically (never true back to false), or a row whose
token value did not occur in the old store at all. -/
def preservesRows (stOld stNew : Store) : Prop :=
  ∀ r2 ∈ stNew.refreshTokens,
    (∃ r ∈ stOld.refreshTokens,
        r.token = r2.token ∧ r.userId = r2.userId ∧ r.expiresAt = r2.expiresAt ∧
        (r.isRevoked = true → r2.isRevoked = true)) ∨
    (∀ r ∈ stOld.refreshTokens, r.token ≠ r2.token)

/-- The signing environment the repository's own jwtService test suite
configures (`tests/unit/services`): two distinct secrets. -/
def envTest : Env :=
  { accessSecret := "test-access-secret-key", refreshSecret := "test-refresh-secret-key"
    accessExpiresIn := 900, refreshExpiresIn := 604800 }

/-- The `validPayload` subject of the jwtService test suite. -/
def payloadTest : TokenPayload :=
  { userId := "user123", email := "test@example.com", role := some "user" }

/-- The refresh token `generateRefreshToken envTest 0 payloadTest` produces. -/
def refTokTest : SignedToken :=
  { claims := { userId := "user123", email := "test@example.com", role := none
                type := "refresh", exp := 604800 }
    secret := "test-refresh-secret-key", issuer := "auth-service", audience := "auth-client" }

/-- The access token `generateAccessToken envTest 0 payloadTest` produces. -/
def accTokTest : SignedToken :=
  { claims := { userId := "user123", email := "test@example.com", role := some "user"
                type := "access", exp := 900 }
    secret := "test-access-secret-key", issuer := "auth-service", audience := "auth-client" }

/-- A small concrete environment used by the witness theorems. -/
def envW : Env :=
  { accessSecret := "as", refreshSecret := "rs", accessExpiresIn := 900, refreshExpiresIn := 604800 }

def userW : User :=
  { id := "u1", email := "a@x.com", password := some "hashed", firstName := "A", lastName := "B"
    provider := "local", providerId := none, isEmailVerified := false, lastLoginAt := none }

/-- A refresh token for `userW`, signed with `envW`'s refresh secret and
expiring (as a JWT) at time 100. -/
def tokW : SignedToken :=
  { claims := { userId := "u1", email := "a@x.com", role := none, type := "refresh", exp := 100 }
    secret := "rs", issuer := "auth-service", audience := "auth-client" }

def rowW : RefreshTokenRow := { token := tokW, userId := "u1", expiresAt := 100, isRevoked := false }

/-- A concrete store with one account and one ACTIVE refresh-token row. -/
def stW : Store := { users := [userW], refreshTokens := [rowW] }

/-- A concrete OAuth profile whose provided email has upper-case
letters. -/
def profC : OAuthProfile :=
  { id := "g1", emails := ["Bob@Example.com"], givenName := some "Bob", familyName := some "E"
    displayName := none, photos := [] }

/-- A refresh token for `userW` minted at time 0 under `envW` — exactly
the token `generateRefreshToken envW 0` produces for this account, so a
rotation performed at the same signing time regenerates this very token
(jwt.sign is deterministic given the same payload and second). -/
def tokClash : SignedToken :=
  { claims := { userId := "u1", email := "a@x.com", role := none, type := "refresh", exp := 604800 }
    secret := "rs", issuer := "auth-service", audience := "auth-client" }

/-- The stored row a registration at time 0 would create for `tokClash`. -/
def rowClash : RefreshTokenRow :=
  { token := tokClash, userId := "u1", expiresAt := 604800, isRevoked := false }

/-- A store holding `userW` and the single ACTIVE row `rowClash`. -/
def stClash : Store := { users := [userW], refreshTokens := [rowClash] }


/-! ### Supporting lemmas -/

lemma mem_cond_singleton (c : Prop) [Decidable c] (m x : String) :
    (x ∈ if c then [m] else []) ↔ (c ∧ x = m) := by
  split <;> simp_all

lemma generateAccessToken_ok (env : Env) (now : Nat) (p : TokenPayload) (tk : SignedToken)
    (h : generateAccessToken env now p = .ok tk) :
    tk = { claims := { userId := p.userId, email := p.email, role := some (jsOr p.role "user")
                       type := "access", exp := now + env.accessExpiresIn }
           secret := env.accessSecret, issuer := "auth-service", audience := "auth-client" } ∧
    p.userId ≠ "" ∧ p.email ≠ "" ∧ env.accessSecret ≠ "" := by
  unfold generateAccessToken at h
  by_cases h1 : p.userId = ""
  · rw [if_pos h1] at h; exact Except.noConfusion h
  rw [if_neg h1] at h
  by_cases h2 : p.email = ""
  · rw [if_pos h2] at h; exact Except.noConfusion h
  rw [if_neg h2] at h
  by_cases h3 : env.accessSecret = ""
  · rw [if_pos h3] at h; exact Except.noConfusion h
  rw [if_neg h3] at h
  exact ⟨(Except.ok.inj h).symm, h1, h2, h3⟩

lemma generateRefreshToken_ok (env : Env) (now : Nat) (p : TokenPayload) (tk : SignedToken)
    (h : generateRefreshToken env now p = .ok tk) :
    tk = { claims := { userId := p.userId, email := p.email, role := none
                       type := "refresh", exp := now + env.refreshExpiresIn }
           secret := env.refreshSecret, issuer := "auth-service", audience := "auth-client" } ∧
    p.userId ≠ "" ∧ p.email ≠ "" ∧ env.refreshSecret ≠ "" := by
  unfold generateRefreshToken at h
  by_cases h1 : p.userId = ""
  · rw [if_pos h1] at h; exact Except.noConfusion h
  rw [if_neg h1] at h
  by_cases h2 : p.email = ""
  · rw [if_pos h2] at h; exact Except.noConfusion h
  rw [if_neg h2] at h
  by_cases h3 : env.refreshSecret = ""
  · rw [if_pos h3] at h; exact Except.noConfusion h
  rw [if_neg h3] at h
  exact ⟨(Except.ok.inj h).symm, h1, h2, h3⟩

lemma createRefreshTokenRow_ok (st : Store) (row : RefreshTokenRow) (st' : Store)
    (h : createRefreshTokenRow st row = .ok st') :
    st' = { st with refreshTokens := st.refreshTokens ++ [row] } ∧
    ∀ r ∈ st.refreshTokens, r.token ≠ row.token := by
  unfold createRefreshTokenRow at h
  by_cases hc : st.refreshTokens.any (fun r => decide (r.token = row.token)) = true
  · rw [if_pos hc] at h; exact Except.noConfusion h
  · rw [if_neg hc] at h
    refine ⟨(Except.ok.inj h).symm, ?_⟩
    intro r hr heq
    exact hc (List.any_eq_true.mpr ⟨r, hr, by simp [heq]⟩)

lemma preservesRows_same (st stNew : Store) (h : stNew.refreshTokens = st.refreshTokens) :
    preservesRows st stNew := by
  intro r2 hr2
  rw [h] at hr2
  exact Or.inl ⟨r2, hr2, rfl, rfl, rfl, id⟩

lemma preservesRows_map (st stNew : Store) (f : RefreshTokenRow → RefreshTokenRow)
    (htok : ∀ r, (f r).token = r.token) (huid : ∀ r, (f r).userId = r.userId)
    (hexp : ∀ r, (f r).expiresAt = r.expiresAt)
    (hmono : ∀ r, r.isRevoked = true → (f r).isRevoked = true)
    (h : stNew.refreshTokens = st.refreshTokens.map f) : preservesRows st stNew := by
  intro r2 hr2
  rw [h] at hr2
  obtain ⟨r, hr, hfr⟩ := List.mem_map.mp hr2
  subst hfr
  exact Or.inl ⟨r, hr, (htok r).symm, (huid r).symm, (hexp r).symm, hmono r⟩

lemma preservesRows_append (st stBase stNew : Store) (row : RefreshTokenRow)
    (hbase : preservesRows st stBase)
    (hfresh : ∀ r ∈ st.refreshTokens, r.token ≠ row.token)
    (h : stNew.refreshTokens = stBase.refreshTokens ++ [row]) : preservesRows st stNew := by
  intro r2 hr2
  rw [h] at hr2
  rcases List.mem_append.mp hr2 with hmem | hmem
  · exact hbase r2 hmem
  · rw [List.mem_singleton] at hmem
    subst hmem
    exact Or.inr hfresh

lemma revokeRow_fields (st : Store) (t : SignedToken) :
    preservesRows st (revokeRow st t) := by
  apply preservesRows_map st _ (fun r => if r.token = t then { r with isRevoked := true } else r)
  · intro r; by_cases h : r.token = t <;> simp [h]
  · intro r; by_cases h : r.token = t <;> simp [h]
  · intro r; by_cases h : r.token = t <;> simp [h]
  · intro r hr; by_cases h : r.token = t <;> simp [h, hr]
  · rfl

lemma preservesRows_create (st base : Store) (row : RefreshTokenRow)
    (hbase : preservesRows st base)
    (htoks : ∀ r ∈ st.refreshTokens, ∃ r2 ∈ base.refreshTokens, r2.token = r.token) :
    ∀ st2, createRefreshTokenRow base row = .ok st2 → preservesRows st st2 := by
  intro st2 hc
  obtain ⟨hst2, hfr⟩ := createRefreshTokenRow_ok base row st2 hc
  apply preservesRows_append st base st2 row hbase _ (by rw [hst2])
  intro r hr
  obtain ⟨r2, hr2, he⟩ := htoks r hr
  rw [← he]
  exact hfr r2 hr2

lemma logout_preservesRows (env : Env) (now : Nat) (st : Store) (tokOpt : Option SignedToken) :
    preservesRows st (logout env now st tokOpt).1 := by
  simp only [logout]
  cases tokOpt with
  | none => exact preservesRows_same st st rfl
  | some tok =>
    simp only
    cases verifyRefreshToken env now tok with
    | error e => exact preservesRows_same st st rfl
    | ok c =>
      simp only
      cases findRefreshToken st tok with
      | none => exact preservesRows_same st st rfl
      | some row =>
        simp only
        by_cases hrev : row.isRevoked = true
        · rw [if_pos hrev]; exact preservesRows_same st st rfl
        · rw [if_neg hrev]; exact revokeRow_fields st tok

lemma refreshTokenOp_preservesRows (env : Env) (now : Nat) (st : Store)
    (tokOpt : Option SignedToken) :
    preservesRows st (refreshTokenOp env now st tokOpt).1 := by
  simp only [refreshTokenOp]
  cases tokOpt with
  | none => exact preservesRows_same st st rfl
  | some tok =>
    simp only
    cases verifyRefreshToken env now tok with
    | error e => exact preservesRows_same st st rfl
    | ok c =>
      simp only
      cases findRefreshToken st tok with
      | none => exact preservesRows_same st st rfl
      | some row =>
        simp only
        by_cases hrev : row.isRevoked = true
        · rw [if_pos hrev]; exact preservesRows_same st st rfl
        rw [if_neg hrev]
        by_cases hexp : row.expiresAt < now
        · rw [if_pos hexp]; exact preservesRows_same st st rfl
        rw [if_neg hexp]
        cases findUserById st row.userId with
        | none => exact revokeRow_fields st tok
        | some user =>
          simp only
          cases generateTokenPair env now { userId := user.id, email := user.email, role := none } with
          | error e => exact revokeRow_fields st tok
          | ok pair =>
            simp only
            cases hc : createRefreshTokenRow (revokeRow st tok)
                { token := pair.refreshToken, userId := user.id
                  expiresAt := now + sevenDays, isRevoked := false } with
            | error m => exact revokeRow_fields st tok
            | ok st2 =>
              simp only
              obtain ⟨hst2, hfr⟩ := createRefreshTokenRow_ok _ _ _ hc
              apply preservesRows_append st (revokeRow st tok) st2 _ (revokeRow_fields st tok)
              · intro r hr
                have := hfr (if r.token = tok then { r with isRevoked := true } else r)
                  (by
                    have hm := List.mem_map_of_mem
                      (fun q => if q.token = tok then { q with isRevoked := true } else q) hr
                    exact hm)
                by_cases h : r.token = tok
                · rw [if_pos h] at this; exact this
                · rw [if_neg h] at this; exact this
              · rw [hst2]

lemma register_preservesRows (env : Env) (hashFn : String → String) (newId : String)
    (now : Nat) (st : Store) (d : RegisterData) :
    preservesRows st (register env hashFn newId now st d).1 := by
  simp only [register]
  repeat' split
  all_goals try exact preservesRows_same st _ rfl
  rename_i st2 hc
  refine preservesRows_create st _ _ ?_ ?_ st2 hc
  · exact preservesRows_same st _ rfl
  · exact fun r hr => ⟨r, hr, rfl⟩

lemma login_preservesRows (env : Env) (cmp : String → String → Bool) (now : Nat)
    (st : Store) (email pw : String) :
    preservesRows st (login env cmp now st email pw).1 := by
  simp only [login]
  repeat' split
  all_goals try exact preservesRows_same st _ rfl
  rename_i st2 hc
  refine preservesRows_create st _ _ ?_ ?_ st2 hc
  · exact preservesRows_same st _ rfl
  · exact fun r hr => ⟨r, hr, rfl⟩

lemma revokeAllTokens_preservesRows (st : Store) (uid : String) :
    preservesRows st (revokeAllTokens st uid).1 := by
  simp only [revokeAllTokens]
  split
  · exact preservesRows_same st st rfl
  · apply preservesRows_map st _
      (fun r => if r.userId = uid ∧ r.isRevoked = false then { r with isRevoked := true } else r)
    · intro r; by_cases h : r.userId = uid ∧ r.isRevoked = false <;> simp [h]
    · intro r; by_cases h : r.userId = uid ∧ r.isRevoked = false <;> simp [h]
    · intro r; by_cases h : r.userId = uid ∧ r.isRevoked = false <;> simp [h]
    · intro r hr
      have hcond : ¬(r.userId = uid ∧ r.isRevoked = false) := by
        rintro ⟨-, hf⟩
        rw [hf] at hr
        exact Bool.false_ne_true hr
      rw [if_neg hcond]
      exact hr
    · rfl

lemma cleanup_preservesRows (st : Store) (now : Nat) :
    preservesRows st (cleanupExpiredTokens st now).1 := by
  intro r2 hr2
  simp only [cleanupExpiredTokens] at hr2
  exact Or.inl ⟨r2, (List.mem_filter.mp hr2).1, rfl, rfl, rfl, id⟩


/-! ### The claims -/

/-- Claim C1 counterexample: the claim as stated is false — a refresh
token that is valid in every sense the claim lists (signature-verified,
present in the store, not revoked, not expired) can still make the FIRST
`refreshToken` call fail.  `tokClash` was minted at time 0, and a
rotation at the same time regenerates the identical token (the model's
`generateRefreshToken` is a function of payload and time, as jwt.sign is
deterministic per signing second), so the insert of the replacement row
hits the `token` unique constraint AFTER the old row was revoked: the
call returns the wrapped unique-constraint error, the old row is left
REVOKED, and the account ends with zero ACTIVE rows — not one. -/
theorem refresh_rotation_same_second_counterexample :
    verifyRefreshToken envW 0 tokClash = .ok tokClash.claims ∧
    findRefreshToken stClash tokClash = some rowClash ∧
    rowClash.isRevoked = false ∧
    ¬ rowClash.expiresAt < 0 ∧
    refreshTokenOp envW 0 stClash (some tokClash) =
      (revokeRow stClash tokClash,
       .error (.tokenRefreshFailed "Unique constraint failed on the fields: (token)")) ∧
    (revokeRow stClash tokClash).refreshTokens = [{ rowClash with isRevoked := true }] ∧
    (revokeRow stClash tokClash).refreshTokens.filter (fun r => isActive r 0) = [] := by
  refine ⟨rfl, rfl, rfl, by decide, rfl, rfl, rfl⟩

/-- Claim C1 (amended): for a refresh token that verifies, is stored,
unrevoked and unexpired, and whose rotation mints a refresh-token string
distinct from every token value already in the store (`hfresh` — the
case that holds whenever the rotation signs at a different second than
any stored token's issuance; without it the same-second collision of the
counterexample above makes the first call itself fail), the first
`refreshToken` call succeeds, a second call with the same token fails
with the revoked-token error (`Unauthorized` at the API boundary), the
new refresh token differs from the old one, and after both calls the
rows that are ACTIVE and new (token value absent from the original
store) are exactly the single row inserted by the first call, owned by
the same account. -/
theorem refresh_rotation_exactly_once
    (env : Env) (now : Nat) (st : Store) (tok : SignedToken) (row : RefreshTokenRow) (user : User)
    (hsec : tok.secret = env.refreshSecret) (hsecne : env.refreshSecret ≠ "")
    (hexp : now < tok.claims.exp)
    (hiss : tok.issuer = "auth-service") (haud : tok.audience = "auth-client")
    (htype : tok.claims.type = "refresh")
    (hfind : findRefreshToken st tok = some row)
    (hrev : row.isRevoked = false)
    (hnexp : ¬ row.expiresAt < now)
    (huser : findUserById st row.userId = some user)
    (hacc : env.accessSecret ≠ "") (huid : user.id ≠ "") (huem : user.email ≠ "")
    (hfresh : ∀ q ∈ st.refreshTokens,
        Except.ok q.token ≠
          generateRefreshToken env now { userId := user.id, email := user.email, role := none }) :
    ∃ (pair : TokenPair) (st2 : Store),
      refreshTokenOp env now st (some tok) = (st2, Except.ok pair) ∧
      refreshTokenOp env now st2 (some tok) = (st2, Except.error AuthErr.refreshTokenRevoked) ∧
      pair.refreshToken ≠ tok ∧
      st2.refreshTokens.filter
          (fun r => isActive r now && !(st.refreshTokens.any (fun q => decide (q.token = r.token)))) =
        [{ token := pair.refreshToken, userId := user.id
           expiresAt := now + sevenDays, isRevoked := false }] := by
  have hv : verifyRefreshToken env now tok = .ok tok.claims := by
    unfold verifyRefreshToken
    rw [if_neg hsecne, if_neg (not_not_intro hsec), if_neg (Nat.not_le.mpr hexp),
        if_neg (by push_neg; exact ⟨hiss, haud⟩), if_neg (not_not_intro htype)]
  obtain ⟨atk, hga⟩ :
      ∃ a, generateAccessToken env now { userId := user.id, email := user.email, role := none } = .ok a :=
    ⟨_, by simp only [generateAccessToken]; rw [if_neg huid, if_neg huem, if_neg hacc]⟩
  obtain ⟨rtk, hgr⟩ :
      ∃ r, generateRefreshToken env now { userId := user.id, email := user.email, role := none } = .ok r :=
    ⟨_, by simp only [generateRefreshToken]; rw [if_neg huid, if_neg huem, if_neg hsecne]⟩
  have hgp : generateTokenPair env now { userId := user.id, email := user.email, role := none } =
      .ok { accessToken := atk, refreshToken := rtk } := by
    simp only [generateTokenPair]
    rw [hga]
    simp only
    rw [hgr]
  have hfr : ∀ q ∈ st.refreshTokens, q.token ≠ rtk := by
    intro q hq heq
    exact hfresh q hq (by rw [heq, hgr])
  have hfind' : st.refreshTokens.find? (fun r => decide (r.token = tok)) = some row := hfind
  have hpa := List.find?_some hfind'
  have hrowtok : row.token = tok := of_decide_eq_true hpa
  have hrowmem : row ∈ st.refreshTokens := List.mem_of_find?_eq_some hfind'
  have hrtktok : rtk ≠ tok := fun h => hfr row hrowmem (hrowtok.trans h.symm)
  have hany0 : st.refreshTokens.any (fun q => decide (q.token = rtk)) = false := by
    rw [Bool.eq_false_iff]
    intro h
    obtain ⟨q, hq, hd⟩ := List.any_eq_true.mp h
    exact hfr q hq (of_decide_eq_true hd)
  have htokmap : ∀ q : RefreshTokenRow,
      ((fun r => if r.token = tok then { r with isRevoked := true } else r) q).token = q.token := by
    intro q
    by_cases h : q.token = tok <;> simp [h]
  have hany1 : (revokeRow st tok).refreshTokens.any (fun r => decide (r.token = rtk)) = false := by
    simp only [revokeRow]
    rw [List.any_map]
    rw [Bool.eq_false_iff]
    intro h
    obtain ⟨q, hq, hd⟩ := List.any_eq_true.mp h
    simp only [Function.comp] at hd
    rw [htokmap q] at hd
    exact hfr q hq (of_decide_eq_true hd)
  have hcr : createRefreshTokenRow (revokeRow st tok)
      { token := rtk, userId := user.id, expiresAt := now + sevenDays, isRevoked := false } =
      .ok { revokeRow st tok with refreshTokens := (revokeRow st tok).refreshTokens ++
          [{ token := rtk, userId := user.id, expiresAt := now + sevenDays, isRevoked := false }] } := by
    simp only [createRefreshTokenRow]
    rw [if_neg (by rw [hany1]; exact Bool.false_ne_true)]
  refine ⟨{ accessToken := atk, refreshToken := rtk },
          { revokeRow st tok with refreshTokens := (revokeRow st tok).refreshTokens ++
              [{ token := rtk, userId := user.id, expiresAt := now + sevenDays, isRevoked := false }] },
          ?_, ?_, hrtktok, ?_⟩
  · simp only [refreshTokenOp]
    rw [hv]
    simp only
    rw [hfind]
    simp only
    rw [if_neg (by rw [hrev]; exact Bool.false_ne_true), if_neg hnexp]
    rw [huser]
    simp only
    rw [hgp]
    simp only
    rw [hcr]
  · have hfind2 : findRefreshToken
        { revokeRow st tok with refreshTokens := (revokeRow st tok).refreshTokens ++
            [{ token := rtk, userId := user.id, expiresAt := now + sevenDays, isRevoked := false }] }
        tok = some { row with isRevoked := true } := by
      unfold findRefreshToken
      show ((st.refreshTokens.map (fun r : RefreshTokenRow => if r.token = tok then { r with isRevoked := true } else r)) ++
          [({ token := rtk, userId := user.id, expiresAt := now + sevenDays, isRevoked := false } : RefreshTokenRow)]).find?
          (fun r => decide (r.token = tok)) = _
      rw [List.find?_append, List.find?_map]
      have hcomp : ((fun r : RefreshTokenRow => decide (r.token = tok)) ∘
          (fun r : RefreshTokenRow => if r.token = tok then { r with isRevoked := true } else r)) =
          (fun r : RefreshTokenRow => decide (r.token = tok)) := by
        funext q
        simp only [Function.comp]
        rw [htokmap q]
      rw [hcomp, hfind']
      simp only [Option.map_some', Option.or_some]
      rw [if_pos hrowtok]
    simp only [refreshTokenOp]
    rw [hv]
    simp only
    rw [hfind2]
    rfl
  · show ((st.refreshTokens.map (fun r : RefreshTokenRow => if r.token = tok then { r with isRevoked := true } else r)) ++
        [({ token := rtk, userId := user.id, expiresAt := now + sevenDays, isRevoked := false } : RefreshTokenRow)]).filter
        (fun r => isActive r now && !(st.refreshTokens.any (fun q => decide (q.token = r.token)))) = _
    rw [List.filter_append]
    have hleft : (st.refreshTokens.map
        (fun r => if r.token = tok then { r with isRevoked := true } else r)).filter
        (fun r => isActive r now && !(st.refreshTokens.any (fun q => decide (q.token = r.token)))) = [] := by
      rw [List.filter_eq_nil_iff]
      intro a ha
      obtain ⟨q, hq, hfq⟩ := List.mem_map.mp ha
      have hany : st.refreshTokens.any (fun q2 => decide (q2.token = a.token)) = true := by
        refine List.any_eq_true.mpr ⟨q, hq, ?_⟩
        rw [← hfq, htokmap q]
        simp
      simp [hany]
    have hright : ([({ token := rtk, userId := user.id, expiresAt := now + sevenDays, isRevoked := false } : RefreshTokenRow)]).filter
        (fun r => isActive r now && !(st.refreshTokens.any (fun q => decide (q.token = r.token)))) =
        [{ token := rtk, userId := user.id, expiresAt := now + sevenDays, isRevoked := false }] := by
      have hp : (isActive { token := rtk, userId := user.id, expiresAt := now + sevenDays, isRevoked := false } now &&
          !(st.refreshTokens.any (fun q => decide (q.token = rtk)))) = true := by
        rw [hany0]
        simp [isActive, Nat.le_add_right]
      simp only [List.filter, hp]
    rw [hleft, hright]
    rfl

/-- Witness for claim C1 (amended): the rotation property evaluated on
the concrete store `stW` with token `tokW` at time 0, where the minted
replacement token (JWT expiry 604800) differs from the stored one (JWT
expiry 100), discharging the freshness hypothesis. -/
theorem refresh_rotation_exactly_once_witness :
    ∃ (pair : TokenPair) (st2 : Store),
      refreshTokenOp envW 0 stW (some tokW) = (st2, Except.ok pair) ∧
      refreshTokenOp envW 0 st2 (some tokW) = (st2, Except.error AuthErr.refreshTokenRevoked) ∧
      pair.refreshToken ≠ tokW ∧
      st2.refreshTokens.filter
          (fun r => isActive r 0 && !(stW.refreshTokens.any (fun q => decide (q.token = r.token)))) =
        [{ token := pair.refreshToken, userId := userW.id
           expiresAt := 0 + sevenDays, isRevoked := false }] :=
  refresh_rotation_exactly_once envW 0 stW tokW rowW userW rfl (by decide) (by decide)
    rfl rfl rfl rfl rfl (by decide) rfl (by decide) (by decide) (by decide) (by decide)

/-- Claim C2: across logout, refresh, revoke-all, register, login and
purge, every refresh-token row of the resulting store is either an
original row with unchanged token, owner and expiry whose revoked flag
never went from true back to false, or a row with a brand-new token
value — so `revoked` is monotonic and `expiresAt` is never extended. -/
theorem refresh_rows_revocation_monotonic
    (env : Env) (hashFn : String → String) (cmp : String → String → Bool)
    (newId : String) (now : Nat) (st : Store)
    (tokOpt tokOpt2 : Option SignedToken) (uid : String) (d : RegisterData)
    (email pw : String) :
    preservesRows st (logout env now st tokOpt).1 ∧
    preservesRows st (refreshTokenOp env now st tokOpt2).1 ∧
    preservesRows st (revokeAllTokens st uid).1 ∧
    preservesRows st (register env hashFn newId now st d).1 ∧
    preservesRows st (login env cmp now st email pw).1 ∧
    preservesRows st (cleanupExpiredTokens st now).1 :=
  ⟨logout_preservesRows env now st tokOpt, refreshTokenOp_preservesRows env now st tokOpt2,
   revokeAllTokens_preservesRows st uid, register_preservesRows env hashFn newId now st d,
   login_preservesRows env cmp now st email pw, cleanup_preservesRows st now⟩

/-- Witness for claim C2: the monotonicity relation evaluated on the
concrete store `stW` for all six operations. -/
theorem refresh_rows_revocation_monotonic_witness :
    preservesRows stW (logout envW 0 stW (some tokW)).1 ∧
    preservesRows stW (refreshTokenOp envW 0 stW (some tokW)).1 ∧
    preservesRows stW (revokeAllTokens stW "u1").1 ∧
    preservesRows stW (register envW (fun _ => "h") "u2" 0 stW
      { email := "b@x.com", password := "Aa1!aaaa", firstName := "A", lastName := "B" }).1 ∧
    preservesRows stW (login envW (fun _ _ => true) 0 stW "a@x.com" "pw").1 ∧
    preservesRows stW (cleanupExpiredTokens stW 0).1 :=
  refresh_rows_revocation_monotonic envW (fun _ => "h") (fun _ _ => true) "u2" 0 stW
    (some tokW) (some tokW) "u1"
    { email := "b@x.com", password := "Aa1!aaaa", firstName := "A", lastName := "B" } "a@x.com" "pw"

/-- Claim C3 (code bug): evaluated under the signing environment the
repository's own jwtService test suite configures (distinct access and
refresh secrets) and its `validPayload` subject, presenting a refresh
token to `verifyAccessToken` fails with the signature error
"Invalid access token" (Malformed), not the kind-check error
"Invalid token type" (WrongKind) asserted by the spec and by the test
"should throw error for refresh token used as access token"; the same
holds symmetrically for `verifyRefreshToken` on an access token. -/
theorem verify_kind_mismatch_code_behavior :
    generateRefreshToken envTest 0 payloadTest = .ok refTokTest ∧
    generateAccessToken envTest 0 payloadTest = .ok accTokTest ∧
    verifyAccessToken envTest 0 refTokTest = Except.error (JwtErr.invalidToken "access") ∧
    verifyRefreshToken envTest 0 accTokTest = Except.error (JwtErr.invalidToken "refresh") ∧
    JwtErr.message (JwtErr.invalidToken "access") = "Invalid access token" ∧
    ¬ verifyAccessToken envTest 0 refTokTest =
        Except.error (JwtErr.verifyFailed "access" "Invalid token type") := by
  refine ⟨rfl, rfl, rfl, rfl, rfl, ?_⟩
  intro h
  rw [show verifyAccessToken envTest 0 refTokTest = Except.error (JwtErr.invalidToken "access")
    from rfl] at h
  exact absurd (Except.error.inj h) (by decide)

/-- Whenever the two signing secrets differ, cross-kind verification
fails with the Malformed (invalid-signature) error for every subject:
the signature check fires before the type check can report WrongKind. -/
theorem verify_kind_mismatch_malformed (env : Env) (now now2 : Nat) (p : TokenPayload)
    (rtk atk : SignedToken)
    (hne : env.accessSecret ≠ env.refreshSecret)
    (hrt : generateRefreshToken env now p = .ok rtk)
    (hat : generateAccessToken env now p = .ok atk) :
    verifyAccessToken env now2 rtk = .error (.invalidToken "access") ∧
    verifyRefreshToken env now2 atk = .error (.invalidToken "refresh") := by
  obtain ⟨hrtk, -, -, hrs⟩ := generateRefreshToken_ok env now p rtk hrt
  obtain ⟨hatk, -, -, has⟩ := generateAccessToken_ok env now p atk hat
  constructor
  · unfold verifyAccessToken
    rw [if_neg has, if_pos (by rw [hrtk]; exact fun hc => hne hc.symm)]
  · unfold verifyRefreshToken
    rw [if_neg hrs, if_pos (by rw [hatk]; exact hne)]

/-- Witness for the cross-kind verification result at the test secrets. -/
theorem verify_kind_mismatch_malformed_witness :
    verifyAccessToken envTest 7 refTokTest = .error (.invalidToken "access") ∧
    verifyRefreshToken envTest 7 accTokTest = .error (.invalidToken "refresh") :=
  verify_kind_mismatch_malformed envTest 0 7 payloadTest refTokTest accTokTest
    (by decide) rfl rfl

/-- Claim C4: a login with an email matching no account and a login with
an existing local account's email but a failing password comparison both
fail with the same error value, whose message is the single generic
string "Invalid email or password" — the caller cannot tell whether the
email exists. -/
theorem login_unauthorized_uniform_wording
    (env : Env) (cmp : String → String → Bool) (now : Nat) (st : Store)
    (email1 pw1 email2 pw2 : String) (u : User) (hp : String)
    (h1e : email1 ≠ "") (h1p : pw1 ≠ "")
    (habsent : findUserByEmail st (lowerStr email1) = none)
    (h2e : email2 ≠ "") (h2p : pw2 ≠ "")
    (hfound : findUserByEmail st (lowerStr email2) = some u)
    (hpw : u.password = some hp) (hpne : hp ≠ "") (hcmp : cmp pw2 hp = false) :
    login env cmp now st email1 pw1 = (st, .error .invalidCredentials) ∧
    login env cmp now st email2 pw2 = (st, .error .invalidCredentials) ∧
    AuthErr.message .invalidCredentials = "Invalid email or password" := by
  refine ⟨?_, ?_, rfl⟩
  · unfold login
    rw [if_neg (by push_neg; exact ⟨h1e, h1p⟩), habsent]
    rfl
  · unfold login
    rw [if_neg (by push_neg; exact ⟨h2e, h2p⟩), hfound]
    simp only
    rw [hpw]
    simp only
    rw [if_neg hpne, hcmp]
    rfl

/-- Witness for claim C4: unknown email and wrong password on `stW` give
the identical generic error. -/
theorem login_unauthorized_uniform_wording_witness :
    login envW (fun _ _ => false) 0 stW "missing@x.com" "pw" = (stW, .error .invalidCredentials) ∧
    login envW (fun _ _ => false) 0 stW "A@x.com" "wrongpw" = (stW, .error .invalidCredentials) ∧
    AuthErr.message .invalidCredentials = "Invalid email or password" :=
  login_unauthorized_uniform_wording envW (fun _ _ => false) 0 stW
    "missing@x.com" "pw" "A@x.com" "wrongpw" userW "hashed"
    (by decide) (by decide) rfl (by decide) (by decide) rfl rfl (by decide) rfl

/-- Claim C5 counterexample: `createOAuthUser` persists the provider email
verbatim, so with input "Bob@Example.com" the stored email is not the
lower-casing of the input, refuting the claim for the OAuth creation
path. -/
theorem oauth_email_case_counterexample :
    (createOAuthUser "u9" 0 { users := [], refreshTokens := [] }
        "Bob@Example.com" "g1" "google" profC).2.email = "Bob@Example.com" ∧
    "Bob@Example.com" ≠ lowerStr "Bob@Example.com" :=
  ⟨rfl, by decide⟩

/-- Claim C5 (amended): local `register` persists the lower-cased email on
the created account, while OAuth new-account creation persists the
provider-supplied email exactly as received, with no lower-casing. -/
theorem creation_email_casing
    (env : Env) (hashFn : String → String) (newId : String) (now : Nat)
    (st : Store) (d : RegisterData) (st' : Store) (res : RegisterResult)
    (hreg : register env hashFn newId now st d = (st', Except.ok res)) :
    (res.user.email = lowerStr d.email ∧ res.user ∈ st'.users) ∧
    (∀ (nid : String) (n : Nat) (s : Store) (em pid prov : String) (prof : OAuthProfile),
      (createOAuthUser nid n s em pid prov prof).2.email = em ∧
      (createOAuthUser nid n s em pid prov prof).2 ∈ (createOAuthUser nid n s em pid prov prof).1.users) := by
  constructor
  · unfold register at hreg
    by_cases h1 : d.email = "" ∨ d.password = "" ∨ d.firstName = "" ∨ d.lastName = ""
    · rw [if_pos h1] at hreg; simp [Prod.ext_iff] at hreg
    rw [if_neg h1] at hreg
    by_cases h2 : !emailFormatOk d.email
    · rw [if_pos h2] at hreg; simp [Prod.ext_iff] at hreg
    rw [if_neg h2] at hreg
    simp only at hreg
    by_cases h3 : !(validatePasswordStrength d.password).isValid
    · rw [if_pos h3] at hreg; simp [Prod.ext_iff] at hreg
    rw [if_neg h3] at hreg
    cases hfe : findUserByEmail st (lowerStr d.email) with
    | some u0 => rw [hfe] at hreg; simp [Prod.ext_iff] at hreg
    | none =>
      rw [hfe] at hreg
      simp only at hreg
      cases hg : generateTokenPair env now
          { userId := newId, email := lowerStr d.email, role := none } with
      | error e => rw [hg] at hreg; simp [Prod.ext_iff] at hreg
      | ok pair =>
        rw [hg] at hreg
        simp only at hreg
        cases hc : createRefreshTokenRow
            { st with users := st.users ++
                [{ id := newId, email := lowerStr d.email, password := some (hashFn d.password)
                   firstName := jsTrim d.firstName, lastName := jsTrim d.lastName
                   provider := "local", providerId := none, isEmailVerified := false
                   lastLoginAt := none }] }
            { token := pair.refreshToken, userId := newId
              expiresAt := now + sevenDays, isRevoked := false } with
        | error m => rw [hc] at hreg; simp [Prod.ext_iff] at hreg
        | ok st2 =>
          rw [hc] at hreg
          obtain ⟨hst2, -⟩ := createRefreshTokenRow_ok _ _ _ hc
          have hres : res = { user := { id := newId, email := lowerStr d.email
                                        password := some (hashFn d.password)
                                        firstName := jsTrim d.firstName, lastName := jsTrim d.lastName
                                        provider := "local", providerId := none
                                        isEmailVerified := false, lastLoginAt := none }
                              tokens := pair } := by
            have := congrArg Prod.snd hreg
            simpa using this.symm
          have hst' : st' = st2 := (congrArg Prod.fst hreg).symm
          refine ⟨by rw [hres], ?_⟩
          rw [hres, hst', hst2]
          exact List.mem_append_right _ (List.mem_singleton_self _)
  · intro nid n s em pid prov prof
    exact ⟨rfl, List.mem_append_right _ (List.mem_singleton_self _)⟩

/-- Witness for claim C5 (amended): a concrete successful registration
stores the lower-cased email. -/
theorem creation_email_casing_witness :
    ∃ (st' : Store) (res : RegisterResult),
      register envW (fun _ => "hashed") "u1" 0 { users := [], refreshTokens := [] }
        { email := "A@x.com", password := "Aa1!aaaa", firstName := "A", lastName := "B" } =
        (st', Except.ok res) ∧
      res.user.email = lowerStr "A@x.com" := by
  refine ⟨_, _, rfl, ?_⟩
  exact (creation_email_casing envW (fun _ => "hashed") "u1" 0
    { users := [], refreshTokens := [] }
    { email := "A@x.com", password := "Aa1!aaaa", firstName := "A", lastName := "B" } _ _ rfl).1.1

/-- Claim C6: a successful logout leaves the user table unchanged and maps
the refresh-token table by flipping `isRevoked` on exactly the rows whose
token equals the presented one; every other row survives unchanged, and a
matching ACTIVE row existed. -/
theorem logout_frame_property (env : Env) (now : Nat) (st : Store) (tok : SignedToken) (st' : Store)
    (h : logout env now st (some tok) = (st', Except.ok ())) :
    st'.users = st.users ∧
    st'.refreshTokens =
      st.refreshTokens.map (fun r => if r.token = tok then { r with isRevoked := true } else r) ∧
    (∀ r ∈ st.refreshTokens, r.token ≠ tok → r ∈ st'.refreshTokens) ∧
    (∃ row ∈ st.refreshTokens, row.token = tok ∧ row.isRevoked = false) := by
  simp only [logout] at h
  cases hv : verifyRefreshToken env now tok with
  | error e => rw [hv] at h; simp [Prod.ext_iff] at h
  | ok c =>
    rw [hv] at h
    cases hf : findRefreshToken st tok with
    | none => rw [hf] at h; simp [Prod.ext_iff] at h
    | some row =>
      rw [hf] at h
      simp only at h
      by_cases hrev : row.isRevoked = true
      · rw [if_pos hrev] at h; simp [Prod.ext_iff] at h
      rw [if_neg hrev] at h
      have hst : st' = revokeRow st tok := (congrArg Prod.fst h).symm
      subst hst
      refine ⟨rfl, rfl, ?_, ?_⟩
      · intro r hr hne
        have hmem2 : (if r.token = tok then ({ r with isRevoked := true } : RefreshTokenRow) else r) ∈
            st.refreshTokens.map (fun q => if q.token = tok then { q with isRevoked := true } else q) :=
          List.mem_map_of_mem _ hr
        rw [if_neg hne] at hmem2
        exact hmem2
      · unfold findRefreshToken at hf
        have hpa := List.find?_some hf
        refine ⟨row, List.mem_of_find?_eq_some hf, of_decide_eq_true hpa, ?_⟩
        exact Bool.eq_false_iff.mpr hrev

/-- Witness for claim C6: the frame property of a concrete successful
logout on `stW`. -/
theorem logout_frame_property_witness :
    (logout envW 0 stW (some tokW)).1.users = stW.users ∧
    (logout envW 0 stW (some tokW)).1.refreshTokens =
      stW.refreshTokens.map (fun r => if r.token = tokW then { r with isRevoked := true } else r) ∧
    (∀ r ∈ stW.refreshTokens, r.token ≠ tokW → r ∈ (logout envW 0 stW (some tokW)).1.refreshTokens) ∧
    (∃ row ∈ stW.refreshTokens, row.token = tokW ∧ row.isRevoked = false) :=
  logout_frame_property envW 0 stW tokW _ rfl

/-- Claim C7 counterexample: on the empty password the source returns only
the single "Password must be a string" violation, although the
too-short rule is also violated — refuting "returns every violated rule"
for every input. -/
theorem strength_empty_counterexample :
    ("" : String).length < 8 ∧
    "Password must be at least 8 characters long" ∉ (validatePasswordStrength "").errors := by
  decide

/-- Claim C7 (amended): for every non-empty password,
`validatePasswordStrength` reports exactly the violated rules — each of
the six rule messages is in the returned list if and only if that rule is
violated, so it never stops at the first violation — and `isValid` is
true exactly when the violation list is empty.  (Empty or non-string
input instead short-circuits to the single "Password must be a string"
violation.) -/
theorem strength_enumerates_all_violations (p : String) (hne : p ≠ "") :
    ("Password must be at least 8 characters long" ∈ (validatePasswordStrength p).errors ↔ p.length < 8) ∧
    ("Password must be less than 128 characters long" ∈ (validatePasswordStrength p).errors ↔ 128 < p.length) ∧
    ("Password must contain at least one lowercase letter" ∈ (validatePasswordStrength p).errors ↔ p.toList.any Char.isLower = false) ∧
    ("Password must contain at least one uppercase letter" ∈ (validatePasswordStrength p).errors ↔ p.toList.any Char.isUpper = false) ∧
    ("Password must contain at least one number" ∈ (validatePasswordStrength p).errors ↔ p.toList.any Char.isDigit = false) ∧
    ("Password must contain at least one special character" ∈ (validatePasswordStrength p).errors ↔ p.toList.any isSpecialChar = false) ∧
    ((validatePasswordStrength p).isValid = true ↔ (validatePasswordStrength p).errors = []) := by
  unfold validatePasswordStrength
  simp only [if_neg hne]
  refine ⟨?_, ?_, ?_, ?_, ?_, ?_, ?_⟩
  all_goals
    simp [List.mem_append, mem_cond_singleton, List.isEmpty_iff]

/-- Witness for claim C7 (amended): the rule-enumeration property
evaluated on the concrete password "aaaa". -/
theorem strength_enumerates_witness :
    ("Password must be at least 8 characters long" ∈ (validatePasswordStrength "aaaa").errors ↔ ("aaaa" : String).length < 8) ∧
    ("Password must be less than 128 characters long" ∈ (validatePasswordStrength "aaaa").errors ↔ 128 < ("aaaa" : String).length) ∧
    ("Password must contain at least one lowercase letter" ∈ (validatePasswordStrength "aaaa").errors ↔ ("aaaa" : String).toList.any Char.isLower = false) ∧
    ("Password must contain at least one uppercase letter" ∈ (validatePasswordStrength "aaaa").errors ↔ ("aaaa" : String).toList.any Char.isUpper = false) ∧
    ("Password must contain at least one number" ∈ (validatePasswordStrength "aaaa").errors ↔ ("aaaa" : String).toList.any Char.isDigit = false) ∧
    ("Password must contain at least one special character" ∈ (validatePasswordStrength "aaaa").errors ↔ ("aaaa" : String).toList.any isSpecialChar = false) ∧
    ((validatePasswordStrength "aaaa").isValid = true ↔ (validatePasswordStrength "aaaa").errors = []) :=
  strength_enumerates_all_violations "aaaa" (by decide)

/-- Claim C8: one purge deletes exactly the revoked-or-expired rows (never
an ACTIVE one), and an immediately repeated purge with the same clock
deletes nothing and reports count 0. -/
theorem purge_idempotent_and_safe (st : Store) (now : Nat) :
    cleanupExpiredTokens (cleanupExpiredTokens st now).1 now = ((cleanupExpiredTokens st now).1, 0) ∧
    (∀ r ∈ st.refreshTokens, isActive r now = true → r ∈ (cleanupExpiredTokens st now).1.refreshTokens) ∧
    (∀ r ∈ st.refreshTokens, (r.isRevoked = true ∨ r.expiresAt < now) → r ∉ (cleanupExpiredTokens st now).1.refreshTokens) := by
  refine ⟨?_, ?_, ?_⟩
  · unfold cleanupExpiredTokens
    simp only [List.filter_filter]
    have h1 : ∀ (l : List RefreshTokenRow) (q : RefreshTokenRow → Bool),
        l.filter (fun a => q a && q a) = l.filter q := by
      intro l q; congr 1; funext a; exact Bool.and_self (q a)
    rw [h1]
    simp [Prod.mk.injEq, Nat.sub_self]
  · intro r hr hact
    unfold cleanupExpiredTokens
    simp only
    refine List.mem_filter.mpr ⟨hr, ?_⟩
    unfold isActive at hact
    rw [Bool.and_eq_true, Bool.not_eq_true'] at hact
    obtain ⟨hrev, hle⟩ := hact
    simp [hrev, Nat.not_lt.mpr (by exact of_decide_eq_true hle)]
  · intro r hr hbad hmem
    unfold cleanupExpiredTokens at hmem
    simp only at hmem
    have := (List.mem_filter.mp hmem).2
    rcases hbad with h | h <;> simp [h] at this

/-- Witness for claim C8: the purge property evaluated on the concrete
store `stW` at time 50. -/
theorem purge_idempotent_and_safe_witness :
    cleanupExpiredTokens (cleanupExpiredTokens stW 50).1 50 = ((cleanupExpiredTokens stW 50).1, 0) ∧
    (∀ r ∈ stW.refreshTokens, isActive r 50 = true → r ∈ (cleanupExpiredTokens stW 50).1.refreshTokens) ∧
    (∀ r ∈ stW.refreshTokens, (r.isRevoked = true ∨ r.expiresAt < 50) →
      r ∉ (cleanupExpiredTokens stW 50).1.refreshTokens) :=
  purge_idempotent_and_safe stW 50

/-- Claim C9: logout verifies the refresh token's JWT before touching the
store, so for a token whose embedded expiry has passed logout fails with
the wrapped expiry error and the returned store is exactly the input
store — for every store, including ones holding a matching unrevoked
row; moreover every failing logout returns the store unchanged. -/
theorem logout_expired_token_store_unchanged (env : Env) (now : Nat) (st : Store) (tok : SignedToken)
    (hsec : tok.secret = env.refreshSecret) (hne : env.refreshSecret ≠ "")
    (hexp : tok.claims.exp ≤ now) :
    logout env now st (some tok) = (st, .error (.logoutFailed "Refresh token has expired")) ∧
    (∀ (tokOpt : Option SignedToken) (e : AuthErr) (st2 : Store),
      logout env now st tokOpt = (st2, .error e) → st2 = st) := by
  constructor
  · have hv : verifyRefreshToken env now tok = .error (.tokenExpired "Refresh") := by
      unfold verifyRefreshToken
      rw [if_neg hne, if_neg (not_not_intro hsec), if_pos hexp]
    simp only [logout]
    rw [hv]
    rfl
  · intro tokOpt e st2 h
    cases tokOpt with
    | none =>
      simp only [logout] at h
      exact (congrArg Prod.fst h).symm
    | some t =>
      simp only [logout] at h
      cases hv : verifyRefreshToken env now t with
      | error e2 => rw [hv] at h; exact (congrArg Prod.fst h).symm
      | ok c =>
        rw [hv] at h
        cases hf : findRefreshToken st t with
        | none => rw [hf] at h; exact (congrArg Prod.fst h).symm
        | some row =>
          rw [hf] at h
          simp only at h
          by_cases hrev : row.isRevoked = true
          · rw [if_pos hrev] at h; exact (congrArg Prod.fst h).symm
          · rw [if_neg hrev] at h
            have := congrArg Prod.snd h
            simp at this

/-- Witness for claim C9: at time 200 the JWT inside `tokW` is expired, a
matching ACTIVE row exists in `stW`, and logout fails leaving `stW`
unchanged. -/
theorem logout_expired_token_store_unchanged_witness :
    logout envW 200 stW (some tokW) =
      (stW, .error (.logoutFailed "Refresh token has expired")) ∧
    (∀ (tokOpt : Option SignedToken) (e : AuthErr) (st2 : Store),
      logout envW 200 stW tokOpt = (st2, .error e) → st2 = stW) :=
  logout_expired_token_store_unchanged envW 200 stW tokW rfl (by decide) (by decide)

/-- Claim C10: every successful refresh returns an access token whose role
claim is "user", because the rotation payload is rebuilt from only the
stored account's id and email and the access-token issuer defaults an
absent role to "user". -/
theorem rotation_access_role_user (env : Env) (now : Nat) (st : Store) (tok : SignedToken)
    (st' : Store) (pair : TokenPair)
    (h : refreshTokenOp env now st (some tok) = (st', Except.ok pair)) :
    pair.accessToken.claims.role = some "user" := by
  simp only [refreshTokenOp] at h
  cases hv : verifyRefreshToken env now tok with
  | error e => rw [hv] at h; simp [Prod.ext_iff] at h
  | ok c =>
    rw [hv] at h
    cases hf : findRefreshToken st tok with
    | none => rw [hf] at h; simp [Prod.ext_iff] at h
    | some row =>
      rw [hf] at h
      simp only at h
      by_cases hrev : row.isRevoked
      · rw [if_pos hrev] at h; simp [Prod.ext_iff] at h
      rw [if_neg hrev] at h
      by_cases hexp : row.expiresAt < now
      · rw [if_pos hexp] at h; simp [Prod.ext_iff] at h
      rw [if_neg hexp] at h
      cases hu : findUserById st row.userId with
      | none => rw [hu] at h; simp [Prod.ext_iff] at h
      | some user =>
        rw [hu] at h
        simp only at h
        cases hg : generateTokenPair env now { userId := user.id, email := user.email, role := none } with
        | error e => rw [hg] at h; simp [Prod.ext_iff] at h
        | ok pr =>
          rw [hg] at h
          simp only at h
          cases hc : createRefreshTokenRow (revokeRow st tok)
              { token := pr.refreshToken, userId := user.id
                expiresAt := now + sevenDays, isRevoked := false } with
          | error m => rw [hc] at h; simp [Prod.ext_iff] at h
          | ok st2 =>
            rw [hc] at h
            have hpair : pr = pair := by
              have := congrArg Prod.snd h
              simpa using this
            subst hpair
            unfold generateTokenPair at hg
            cases ha : generateAccessToken env now { userId := user.id, email := user.email, role := none } with
            | error e => rw [ha] at hg; exact Except.noConfusion hg
            | ok atk =>
              rw [ha] at hg
              simp only at hg
              obtain ⟨hatk, -, -, -⟩ :=
                generateAccessToken_ok env now { userId := user.id, email := user.email, role := none } atk ha
              cases hr : generateRefreshToken env now { userId := user.id, email := user.email, role := none } with
              | error e => rw [hr] at hg; exact Except.noConfusion hg
              | ok rtk2 =>
                rw [hr] at hg
                simp only at hg
                have hpr := (Except.ok.inj hg).symm
                rw [hpr, hatk]
                simp [jsOr]

/-- Witness for claim C10: the concrete successful refresh on `stW`
returns an access token with role claim "user". -/
theorem rotation_access_role_user_witness :
    ∃ (st2 : Store) (pair : TokenPair),
      refreshTokenOp envW 0 stW (some tokW) = (st2, Except.ok pair) ∧
      pair.accessToken.claims.role = some "user" := by
  refine ⟨_, _, rfl, ?_⟩
  exact rotation_access_role_user envW 0 stW tokW _ _ rfl

end AuthJwt
